import Mathlib

/-!
# Shallow embedding of the `go-graphql-client` subscription client

This file embeds the subscription-client core of `subscription.go`
(package `graphql` of `hasura/go-graphql-client`) as executable Lean
definitions, and proves properties of the embedded code.

Modelling conventions:
* Go `map[string]V` values are embedded as association lists
  `List (String × V)` with lookup/insert/erase helpers; Go maps have
  unique keys, so theorems about registry iteration carry a `Nodup`
  hypothesis on the key list.
* Opaque Go values that the client merely stores and compares
  (user handlers, variable maps, wire messages) are embedded as `Nat`
  tokens.
* Nondeterministic inputs (generated UUIDs, results of network calls,
  the current clock) are passed as explicit parameters or oracle
  records.
* A Go runtime panic (nil-pointer dereference) is made explicit with
  `Except GoPanic`.
-/

namespace GoGraphqlClient

/-- Association-list lookup, embedding a Go `m[k]` read on `map[string]V`. -/
def mapLookup {α : Type} (m : List (String × α)) (k : String) : Option α :=
  match m with
  | [] => none
  | (k', v) :: rest => if k' = k then some v else mapLookup rest k

/-- Association-list insert, embedding a Go `m[k] = v` write (replacing any
existing binding for `k`). -/
def mapInsert {α : Type} (m : List (String × α)) (k : String) (v : α) :
    List (String × α) :=
  match m with
  | [] => [(k, v)]
  | (k', v') :: rest =>
      if k' = k then (k, v) :: rest else (k', v') :: mapInsert rest k v

/-- Association-list erase, embedding a Go `delete(m, k)`. -/
def mapErase {α : Type} (m : List (String × α)) (k : String) :
    List (String × α) :=
  match m with
  | [] => []
  | (k', v') :: rest => if k' = k then rest else (k', v') :: mapErase rest k

/-- The keys of an association list. -/
def mapKeys {α : Type} (m : List (String × α)) : List String := m.map (·.1)

/-- Go error values that the subscription client creates or tests with
`errors.Is`.  `wrapped` embeds `fmt.Errorf("%s: %w", wrapMsg, inner)`. -/
inductive GoError : Type where
  | netErrClosed : GoError
  | contextCanceled : GoError
  | contextDeadlineExceeded : GoError
  | errRetry : GoError
  | errSubscriptionStopped : GoError
  | errSubscriptionNotExists : GoError
  | wrapped (wrapMsg : String) (inner : GoError) : GoError
  | closeErr (code : Int) (reason : String) : GoError
  | goError (msg : String) : GoError
deriving DecidableEq

/-- Embedding of Go `errors.Is(e, target)` for the sentinel targets the
subscription client uses: unwrap `fmt.Errorf("%w")` wrappers and compare. -/
def errorsIs (e target : GoError) : Bool :=
  match e with
  | .wrapped _ inner => e == target || errorsIs inner target
  | _ => e == target

/-- A Go runtime panic observed by the model. -/
inductive GoPanic : Type where
  | nilPointerDereference : GoPanic
  | indexOutOfRange : GoPanic
deriving DecidableEq

/-- `Except` as a sum, to decide equality of fallible results. -/
def exceptToSum {ε α : Type} : Except ε α → ε ⊕ α
  | .error e => .inl e
  | .ok a => .inr a

instance {ε α : Type} [DecidableEq ε] [DecidableEq α] :
    DecidableEq (Except ε α) := fun a b =>
  decidable_of_iff (exceptToSum a = exceptToSum b)
    (by cases a <;> cases b <;> simp [exceptToSum])

/-! ## Status constants (`subscription.go`, lines 28-60) -/

/-- internal state machine status `scStatusInitializing`. -/
def scStatusInitializing : Int := 0
/-- internal state machine status `scStatusRunning`. -/
def scStatusRunning : Int := 1
/-- internal state machine status `scStatusClosing`. -/
def scStatusClosing : Int := 2

/-- `SubscriptionStatus` of a single subscription. -/
inductive SubscriptionStatus : Type where
  | SubscriptionWaiting : SubscriptionStatus
  | SubscriptionRunning : SubscriptionStatus
  | SubscriptionUnsubscribed : SubscriptionStatus
deriving DecidableEq

/-- `StatusInvalidMessage websocket.StatusCode = 4400`. -/
def StatusInvalidMessage : Int := 4400
/-- `StatusUnauthorized websocket.StatusCode = 4401`. -/
def StatusUnauthorized : Int := 4401
/-- `StatusConnectionInitialisationTimeout websocket.StatusCode = 4408`. -/
def StatusConnectionInitialisationTimeout : Int := 4408
/-- `StatusSubscriberAlreadyExists websocket.StatusCode = 4409`. -/
def StatusSubscriberAlreadyExists : Int := 4409
/-- `StatusTooManyInitialisationRequests websocket.StatusCode = 4429`. -/
def StatusTooManyInitialisationRequests : Int := 4429

/-! Close-status constants of the `github.com/coder/websocket` dependency
(its `StatusCode` enumeration follows the IANA WebSocket close-code
registry); the dependency is external to this repository, so only the
constants referenced by `subscription.go` are reproduced. -/

/-- `websocket.StatusNormalClosure = 1000`. -/
def StatusNormalClosure : Int := 1000
/-- `websocket.StatusNoStatusRcvd = 1005`. -/
def StatusNoStatusRcvd : Int := 1005
/-- `websocket.StatusAbnormalClosure = 1006`. -/
def StatusAbnormalClosure : Int := 1006
/-- `websocket.StatusInternalError = 1011`. -/
def StatusInternalError : Int := 1011
/-- `websocket.StatusBadGateway = 1014`. -/
def StatusBadGateway : Int := 1014

/-! ## Data model -/

/-- `GraphQLRequestPayload`: the graphql request payload of a subscription.
`variables` (a Go `map[string]interface{}`) is embedded as an opaque token. -/
structure GraphQLRequestPayload : Type where
  Query : String
  Variables : Nat
  OperationName : String
deriving DecidableEq

/-- `Subscription` (`subscription.go`, lines 500-506): the subscription
declaration and its state.  The Go `handler` closure is embedded as an
opaque token. -/
structure Subscription : Type where
  id : String
  key : String
  payload : GraphQLRequestPayload
  handler : Nat
  status : SubscriptionStatus
deriving DecidableEq

/-- `Subscription.Clone` (`subscription.go`, lines 542-550): copy the
subscription with a newly generated id (`uuid.NewString()` is passed in as
`freshId`) and status reset to `SubscriptionWaiting`. -/
def Subscription.Clone (s : Subscription) (freshId : String) : Subscription :=
  { id := freshId
    key := s.key
    status := .SubscriptionWaiting
    payload := s.payload
    handler := s.handler }

/-- The observable behaviour of a `WebsocketConn`: the error results its
`WriteJSON`, `Close` and `Ping` methods would return. -/
structure WebsocketConnM : Type where
  writeJSONResult : Option GoError
  closeResult : Option GoError
  pingResult : Option GoError
deriving DecidableEq

/-- `SubscriptionContext` (`subscription.go`, lines 136-146): the
per-session state.  The embedded Go `context.Context`/`cancel` pair and the
back-pointer to the client are not represented; `connectionInitAt` is an
integer timestamp. -/
structure SubscriptionContext : Type where
  websocketConn : Option WebsocketConnM
  connectionInitAt : Int
  acknowledged : Bool
  subscriptions : List (String × Subscription)
deriving DecidableEq

namespace SubscriptionContext

/-- `SubscriptionContext.GetSubscription` (`subscription.go`, lines
234-252): look the subscription up by map key, then fall back to scanning
for a matching subscription `id`. -/
def GetSubscription (sc : SubscriptionContext) (id : String) :
    Option Subscription :=
  match mapLookup sc.subscriptions id with
  | some sub => some sub
  | none => (sc.subscriptions.find? (fun s => id = s.2.id)).map (·.2)

/-- `SubscriptionContext.GetSubscriptionsLength` (`subscription.go`, lines
255-271): count the subscriptions whose status is in `status`. -/
def GetSubscriptionsLength (sc : SubscriptionContext)
    (status : List SubscriptionStatus) : Nat :=
  if status.isEmpty then sc.subscriptions.length
  else (sc.subscriptions.filter (fun sub => status.contains sub.2.status)).length

/-- `SubscriptionContext.GetSubscriptions` (`subscription.go`, lines
274-283): a copy of the session subscription map. -/
def GetSubscriptions (sc : SubscriptionContext) : List (String × Subscription) :=
  sc.subscriptions

/-- `SubscriptionContext.SetSubscription` (`subscription.go`, lines
287-295): set the subscription state; a `none` value removes the key. -/
def SetSubscription (sc : SubscriptionContext) (key : String)
    (sub : Option Subscription) : SubscriptionContext :=
  match sub with
  | none => { sc with subscriptions := mapErase sc.subscriptions key }
  | some s => { sc with subscriptions := mapInsert sc.subscriptions key s }

/-- `SubscriptionContext.Close` (`subscription.go`, lines 312-329): clear
and close the websocket connection, cancel the inner context, and report
`nil` when the connection close failed with `net.ErrClosed`. -/
def Close (sc : SubscriptionContext) : SubscriptionContext × Option GoError :=
  match sc.websocketConn with
  | none => (sc, none)
  | some conn =>
      let sc := { sc with websocketConn := none }
      let err := conn.closeResult
      match err with
      | some e => if errorsIs e .netErrClosed then (sc, none) else (sc, some e)
      | none => (sc, none)

/-- `SubscriptionContext.Send` (`subscription.go`, lines 332-340): write the
message when a connection exists, otherwise return `nil` without sending.
The wire message is an opaque token; `transmitted` records what (if
anything) was passed to `conn.WriteJSON`. -/
def Send (sc : SubscriptionContext) (message : Nat) :
    Option Nat × Option GoError :=
  match sc.websocketConn with
  | some conn => (some message, conn.writeJSONResult)
  | none => (none, none)

end SubscriptionContext

/-! ## Read-loop error dispatch (`SubscriptionContext.run`) -/

/-- What the read loop does with a failed `conn.ReadJSON` call
(`subscription.go`, lines 399-447). -/
inductive ReadErrorOutcome : Type where
  /-- send `errRetry` on the client error channel and return. -/
  | emitRetryAndReturn : ReadErrorOutcome
  /-- return without emitting anything (`context.Canceled`). -/
  | returnOnly : ReadErrorOutcome
  /-- cancel the session context and return. -/
  | cancelAndReturn : ReadErrorOutcome
  /-- send the original error on the client error channel and return. -/
  | sendErrorChanAndReturn : ReadErrorOutcome
  /-- fall through to the `onError` callback and continue the loop. -/
  | onErrorPath : ReadErrorOutcome
deriving DecidableEq

/-- The features of a read error that the dispatch in
`SubscriptionContext.run` branches on. -/
structure ReadError : Type where
  /-- `io.EOF`, an "EOF" message, `net.ErrClosed`, or a
  "connection reset by peer" message. -/
  isEOFLike : Bool
  /-- `errors.Is(err, context.Canceled)`. -/
  isContextCanceled : Bool
  /-- `conn.GetCloseStatus(err)`. -/
  closeStatus : Int
deriving DecidableEq

/-- One entry of `retryStatusCodes` matching a close status
(`subscription.go`, lines 413-420): a single code matches by equality, a
range of two or more codes matches between its first two entries
inclusively. -/
def matchesRetryCode (closeStatus : Int) (retryCode : List Int) : Bool :=
  match retryCode with
  | [] => false
  | [c] => c == closeStatus
  | c₁ :: c₂ :: _ => c₁ ≤ closeStatus && closeStatus ≤ c₂

/-- The error branch of the read loop `SubscriptionContext.run`
(`subscription.go`, lines 399-447): EOF-like errors retry, cancellation
returns, then the close status is dispatched against the configured retry
codes and the fixed status table. -/
def handleReadError (retryStatusCodes : List (List Int)) (e : ReadError) :
    ReadErrorOutcome :=
  if e.isEOFLike then .emitRetryAndReturn
  else if e.isContextCanceled then .returnOnly
  else if retryStatusCodes.any (matchesRetryCode e.closeStatus) then
    .emitRetryAndReturn
  else if e.closeStatus = StatusBadGateway ∨ e.closeStatus = StatusNoStatusRcvd then
    .emitRetryAndReturn
  else if e.closeStatus = StatusNormalClosure ∨ e.closeStatus = StatusAbnormalClosure then
    .cancelAndReturn
  else if e.closeStatus = StatusInternalError ∨ e.closeStatus = StatusInvalidMessage ∨
      e.closeStatus = StatusConnectionInitialisationTimeout ∨
      e.closeStatus = StatusTooManyInitialisationRequests ∨
      e.closeStatus = StatusSubscriberAlreadyExists ∨
      e.closeStatus = StatusUnauthorized then
    .sendErrorChanAndReturn
  else .onErrorPath

/-! ## `WebsocketHandler.GetCloseStatus` -/

/-- The features of an error that `WebsocketHandler.GetCloseStatus`
inspects.  `embeddedCloseStatus` is the result of `websocket.CloseStatus`,
which returns `-1` when the error carries no close frame. -/
structure WsError : Type where
  isDeadlineExceeded : Bool
  embeddedCloseStatus : Int
  messageContainsRsvBits : Bool
deriving DecidableEq

/-- `WebsocketHandler.GetCloseStatus` (`subscription.go`, lines 1264-1280):
deadline-exceeded errors ping the peer (result passed as `pingResult`);
otherwise the embedded close status is returned, with the
"unexpected rsv bits" quirk mapped to a normal closure. -/
def GetCloseStatus (e : WsError) (pingResult : Option GoError) : Int :=
  if e.isDeadlineExceeded then
    if pingResult.isSome then StatusNoStatusRcvd else -1
  else
    let code := e.embeddedCloseStatus
    if code = -1 ∧ e.messageContainsRsvBits then StatusNormalClosure else code

/-! ## Client state and teardown -/

/-- A value stored in the `Extensions` map of a structured `Error`
(`map[string]interface{}` in Go): either a keyed map of errors or a single
(possibly nil) error. -/
inductive ExtensionValue : Type where
  | errMap (m : List (String × GoError)) : ExtensionValue
  | err (e : Option GoError) : ExtensionValue
deriving DecidableEq

/-- The structured `Error` type of package `graphql` as constructed by
`SubscriptionClient.close` (`subscription.go`, lines 1159-1166): a message
and an `Extensions` map.  The struct declaration itself lives in another
file of the repository; its two fields are taken from their use here. -/
structure GraphqlError : Type where
  Message : String
  Extensions : List (String × ExtensionValue)
deriving DecidableEq

/-- The observable behaviour of the `SubscriptionProtocol` implementation
(an interface; its implementations live in other files of the repository):
the error results of `Unsubscribe`, `Subscribe` and `Close` calls. -/
structure ProtocolOracle : Type where
  unsubscribeResult : Subscription → Option GoError
  subscribeResult : Subscription → Option GoError
  closeResult : Option GoError

/-- `SubscriptionClient` (`subscription.go`, lines 553-586): the fields of
the client that the embedded operations read or write.  Configuration that
only parameterises network behaviour (url, timeouts, websocket options,
callbacks) is omitted; `onErrorReturns` embeds the optional `onError`
callback as the value it would return on each error. -/
structure SubscriptionClient : Type where
  clientStatus : Int
  rawSubscriptions : List (String × Subscription)
  currentSession : Option SubscriptionContext
  exitWhenNoSubscription : Bool
  retryStatusCodes : List (List Int)
  connectionInitialisationTimeout : Int
  onErrorReturns : Option (GoError → Option GoError)

/-- The removal-and-unsubscribe loop of `SubscriptionClient.close`
(`subscription.go`, lines 1146-1153): for each entry of a copy of the
session map, remove it from the session, and if it was running, invoke the
protocol `Unsubscribe`, collecting errors other than `net.ErrClosed` and
`context.Canceled` keyed by the map key.  `collectStep` is one iteration of the loop;
`collectUnsubscribeErrors` is the whole loop. -/
def collectStep (oracle : ProtocolOracle)
    (acc : SubscriptionContext × List (String × GoError))
    (kv : String × Subscription) :
    SubscriptionContext × List (String × GoError) :=
  let session := acc.1.SetSubscription kv.1 none
  if kv.2.status = .SubscriptionRunning then
    match oracle.unsubscribeResult kv.2 with
    | some err =>
        if errorsIs err .netErrClosed || errorsIs err .contextCanceled then
          (session, acc.2)
        else (session, acc.2 ++ [(kv.1, err)])
    | none => (session, acc.2)
  else (session, acc.2)

def collectUnsubscribeErrors (oracle : ProtocolOracle)
    (subs : List (String × Subscription)) (session : SubscriptionContext) :
    SubscriptionContext × List (String × GoError) :=
  subs.foldl (collectStep oracle) (session, [])

/-- `SubscriptionClient.close` (`subscription.go`, lines 1125-1170) applied
to the current session (every caller passes the current session pointer):
a no-op when already closing; otherwise mark the client closing, cancel,
unsubscribe and drop every session subscription, close the protocol and the
session, and aggregate any remaining unsubscribe errors together with the
protocol and session close errors into a structured error. -/
def closeClient (oracle : ProtocolOracle) (sc : SubscriptionClient) :
    SubscriptionClient × Option GraphqlError :=
  if sc.clientStatus = scStatusClosing then (sc, none)
  else
    let sc := { sc with clientStatus := scStatusClosing }
    match sc.currentSession with
    | none => (sc, none)
    | some session =>
        match session.websocketConn with
        | none => (sc, none)
        | some _ =>
            let collected :=
              collectUnsubscribeErrors oracle session.GetSubscriptions session
            let protocolCloseError := oracle.closeResult
            let closed := collected.1.Close
            let sc := { sc with currentSession := some closed.1 }
            if collected.2.length > 0 then
              (sc, some
                { Message := "failed to close the subscription client"
                  Extensions :=
                    [("unsubscribe", .errMap collected.2),
                     ("protocol", .err protocolCloseError),
                     ("close", .err closed.2)] })
            else (sc, none)

/-- `SubscriptionClient.checkSubscriptionStatuses` (`subscription.go`,
lines 1172-1181) applied to the current session: close the client if
`exitWhenNoSubscription` is set and no subscription is running or
waiting. -/
def checkSubscriptionStatuses (oracle : ProtocolOracle)
    (sc : SubscriptionClient) : SubscriptionClient :=
  match sc.currentSession with
  | none => sc
  | some session =>
      if sc.exitWhenNoSubscription ∧
          session.GetSubscriptionsLength
            [.SubscriptionRunning, .SubscriptionWaiting] = 0 then
        (closeClient oracle sc).1
      else sc

/-- `SubscriptionClient.Close` (`subscription.go`, lines 1119-1123): empty
the registry, then close the current session. -/
def SubscriptionClient.Close (oracle : ProtocolOracle)
    (sc : SubscriptionClient) : SubscriptionClient × Option GraphqlError :=
  let sc := { sc with rawSubscriptions := [] }
  closeClient oracle sc

/-- `SubscriptionClient.Unsubscribe` (`subscription.go`, lines 976-1006):
look the id up in the registry (returning a wrapped
`ErrSubscriptionNotExists` when absent), remove it, then consult the
current session.  The Go code calls `currentSession.GetSubscription(id)`
before its `currentSession == nil` check, so a registered id with no
current session dereferences a nil pointer. -/
def SubscriptionClient.Unsubscribe (oracle : ProtocolOracle)
    (sc : SubscriptionClient) (id : String) :
    Except GoPanic (SubscriptionClient × Option GoError) :=
  match mapLookup sc.rawSubscriptions id with
  | none => .ok (sc, some (.wrapped id .errSubscriptionNotExists))
  | some _ =>
      let currentSession := sc.currentSession
      let sc := { sc with rawSubscriptions := mapErase sc.rawSubscriptions id }
      match currentSession with
      | none => .error .nilPointerDereference
      | some session =>
          match session.GetSubscription id with
          | none => .ok (sc, none)
          | some sessionSub =>
              if sessionSub.status = .SubscriptionUnsubscribed then .ok (sc, none)
              else
                let err :=
                  if sessionSub.status = .SubscriptionRunning then
                    oracle.unsubscribeResult sessionSub
                  else none
                let sessionSub := { sessionSub with status := .SubscriptionUnsubscribed }
                let session := session.SetSubscription sessionSub.key (some sessionSub)
                let sc := { sc with currentSession := some session }
                let sc := checkSubscriptionStatuses oracle sc
                .ok (sc, err)

/-- The result of `SubscriptionClient.doRaw`: the updated client, the
returned subscription id and error, and whether `protocol.Subscribe` was
invoked. -/
structure DoRawResult : Type where
  client : SubscriptionClient
  id : String
  subscribeInvoked : Bool
  err : Option GoError

/-- `SubscriptionClient.doRaw` (`subscription.go`, lines 933-964): mint a
fresh identifier (`uuid.New().String()`, passed in as `uuid`) used as both
the key and the id, record the subscription in the registry, mirror it into
the current session if one exists, and invoke `protocol.Subscribe`
immediately when the client is running and the session acknowledged.  The
wrapped handler is an opaque token. -/
def doRaw (oracle : ProtocolOracle) (sc : SubscriptionClient) (uuid : String)
    (query : String) (vars : Nat) (operationName : String)
    (handler : Nat) : DoRawResult :=
  let id := uuid
  let sub : Subscription :=
    { id := id
      key := id
      payload := { Query := query, Variables := vars, OperationName := operationName }
      handler := handler
      status := .SubscriptionWaiting }
  let sc := { sc with rawSubscriptions := mapInsert sc.rawSubscriptions id sub }
  match sc.currentSession with
  | none => { client := sc, id := id, subscribeInvoked := false, err := none }
  | some session =>
      let session := session.SetSubscription id (some sub)
      let sc := { sc with currentSession := some session }
      if sc.clientStatus = scStatusRunning ∧ session.acknowledged then
        { client := sc, id := id, subscribeInvoked := true,
          err := oracle.subscribeResult sub }
      else { client := sc, id := id, subscribeInvoked := false, err := none }

/-- The session-construction prefix of `SubscriptionClient.initNewSession`
(`subscription.go`, lines 1016-1024): a fresh `SubscriptionContext` (all
fields zero-valued: no connection, not acknowledged) whose subscription map
is filled by cloning every registry entry under its key.  The per-clone
`uuid.NewString()` results are supplied by `fresh`.  The subsequent network
initialisation does not touch the cloned map. -/
def initNewSessionContext (sc : SubscriptionClient) (fresh : String → String) :
    SubscriptionContext :=
  sc.rawSubscriptions.foldl
    (fun ctx kv => ctx.SetSubscription kv.1 (some (kv.2.Clone (fresh kv.1))))
    { websocketConn := none
      connectionInitAt := 0
      acknowledged := false
      subscriptions := [] }

/-! ## Supervisor loop (`RunWithContext`) -/

/-- What one iteration of the `RunWithContext` supervisor loop does with a
value received on the error channel. -/
inductive SupervisorAction : Type where
  /-- `return nil`. -/
  | returnNil : SupervisorAction
  /-- `return sc.close(subContext)`. -/
  | returnClose : SupervisorAction
  /-- close and `return err` from the `onError` callback. -/
  | returnErr (e : GoError) : SupervisorAction
  /-- create a new session and continue the loop. -/
  | newSession : SupervisorAction
deriving DecidableEq

/-- The error-channel branch of `RunWithContext` (`subscription.go`, lines
1074-1100): return nil when already closing, shut down on the stop
sentinel, consult `onError` for every non-retry error, and otherwise start
a new session. -/
def handleErrorChan (clientStatus : Int)
    (onErrorReturns : Option (GoError → Option GoError)) (e : GoError) :
    SupervisorAction :=
  if clientStatus = scStatusClosing then .returnNil
  else if errorsIs e .errSubscriptionStopped then .returnClose
  else
    match onErrorReturns with
    | some f =>
        if ¬ errorsIs e .errRetry then
          match f e with
          | some err => .returnErr err
          | none => .newSession
        else .newSession
    | none => .newSession

/-- The default branch of the `RunWithContext` select (`subscription.go`,
lines 1101-1114): when a current session exists, an initialisation timeout
is configured, the session is not acknowledged, and more than the timeout
has elapsed since `connectionInitAt`, send a `websocket.CloseError` with
status 4408 on the error channel. -/
def initTimeoutWatchdog (sc : SubscriptionClient) (now : Int) :
    Option GoError :=
  match sc.currentSession with
  | none => none
  | some session =>
      if sc.connectionInitialisationTimeout > 0 ∧ ¬ session.acknowledged ∧
          now - session.connectionInitAt > sc.connectionInitialisationTimeout then
        some (.closeErr StatusConnectionInitialisationTimeout
          "Connection initialisation timeout")
      else none

/-! ## Connection statistics

The `websocketStats` module of package `graphql` (its source file is the
second document carried in `src/README.md`): a package-level
`maxClosedConnectionCacheSize` variable, a `websocketStats` state, and the
exported stats API.  Connection ids (Go `uuid.UUID`) are embedded as
`Nat`; the `activeConnectionIDs` map `map[uuid.UUID]bool` is embedded as
its list of keys; the package-level cache-size variable (a Go `int`) is
carried as a field of the state record so that the state is one value. -/

/-- `websocketStats`: the set of active connection ids, the FIFO cache of
closed connection ids, and the total-closed counter, together with the
package-level `maxClosedConnectionCacheSize` variable (initially 100). -/
structure websocketStats : Type where
  activeConnectionIDs : List Nat
  closedConnectionIDs : List Nat
  totalClosedConnections : Nat
  maxClosedConnectionCacheSize : Int
deriving DecidableEq

/-- `WebSocketStats`: the snapshot struct returned by `GetStats`. -/
structure WebSocketStats : Type where
  TotalActiveConnections : Nat
  TotalClosedConnections : Nat
  ActiveConnectionIDs : List Nat
deriving DecidableEq

/-- `defaultWebSocketStats`: empty active map and closed cache, zero-valued
counter, with the package-level cache size at its initial value 100. -/
def defaultWebSocketStats : websocketStats :=
  { activeConnectionIDs := []
    closedConnectionIDs := []
    totalClosedConnections := 0
    maxClosedConnectionCacheSize := 100 }

/-- `websocketStats.AddActiveConnection`:
`ws.activeConnectionIDs[id] = true`, a map-key insert (a no-op on the key
list when the id is already present). -/
def websocketStats.AddActiveConnection (ws : websocketStats) (id : Nat) :
    websocketStats :=
  if ws.activeConnectionIDs.contains id then ws
  else { ws with activeConnectionIDs := ws.activeConnectionIDs ++ [id] }

/-- `websocketStats.AddClosedConnection`: delete the id from the active
map; return unchanged if the id is already in the closed cache; otherwise
increment the total-closed counter and append the id when the cache is
below `maxClosedConnectionCacheSize`, else run the eviction loop
(`closedConnectionIDs[i-1] = closedConnectionIDs[i]` for
`1 ≤ i < max`, then `closedConnectionIDs[max-1] = id`), which leaves
positions at index `max` and beyond unchanged and panics with an
index-out-of-range when `max ≤ 0` (the write to
`closedConnectionIDs[max-1]`). -/
def websocketStats.AddClosedConnection (ws : websocketStats) (id : Nat) :
    Except GoPanic websocketStats :=
  let ws := { ws with
    activeConnectionIDs := ws.activeConnectionIDs.filter (fun x => x != id) }
  if ws.closedConnectionIDs.contains id then .ok ws
  else
    let ws := { ws with
      totalClosedConnections := ws.totalClosedConnections + 1 }
    if (ws.closedConnectionIDs.length : Int) < ws.maxClosedConnectionCacheSize
    then
      .ok { ws with closedConnectionIDs := ws.closedConnectionIDs ++ [id] }
    else if ws.maxClosedConnectionCacheSize ≤ 0 then .error .indexOutOfRange
    else
      .ok { ws with
        closedConnectionIDs :=
          (ws.closedConnectionIDs.drop 1).take
              (ws.maxClosedConnectionCacheSize.toNat - 1)
            ++ [id]
            ++ ws.closedConnectionIDs.drop
                ws.maxClosedConnectionCacheSize.toNat }

/-- `websocketStats.Reset`: empty the active map and the closed cache and
zero the counter (the package-level cache size is untouched). -/
def websocketStats.Reset (ws : websocketStats) : websocketStats :=
  { ws with
      activeConnectionIDs := []
      closedConnectionIDs := []
      totalClosedConnections := 0 }

/-- `websocketStats.GetStats`: snapshot with the active-id list, its
length, and the total-closed counter. -/
def websocketStats.GetStats (ws : websocketStats) : WebSocketStats :=
  { ActiveConnectionIDs := ws.activeConnectionIDs
    TotalActiveConnections := ws.activeConnectionIDs.length
    TotalClosedConnections := ws.totalClosedConnections }

/-- `GetWebSocketStats`: `defaultWebSocketStats.GetStats()` on the
singleton state, passed explicitly here. -/
def GetWebSocketStats (ws : websocketStats) : WebSocketStats := ws.GetStats

/-- `ResetWebSocketStats`: `defaultWebSocketStats.Reset()` on the singleton
state, passed explicitly here. -/
def ResetWebSocketStats (ws : websocketStats) : websocketStats := ws.Reset

/-- `SetMaxClosedConnectionMetricCacheSize`: set the package-level cache
size to `int(size)`; when the cache is longer than the new size, keep the
newest `size` entries (`newSlice[i] = closedConnectionIDs[startIndex+i]`
with `startIndex = len - size`). -/
def SetMaxClosedConnectionMetricCacheSize (ws : websocketStats)
    (size : Nat) : websocketStats :=
  let ws := { ws with maxClosedConnectionCacheSize := (size : Int) }
  if (ws.closedConnectionIDs.length : Int) ≤ ws.maxClosedConnectionCacheSize
  then ws
  else
    { ws with
        closedConnectionIDs :=
          ws.closedConnectionIDs.drop
            (ws.closedConnectionIDs.length -
              ws.maxClosedConnectionCacheSize.toNat) }

/-! ## Map helper lemmas -/

theorem mapLookup_mapInsert_self {α : Type} (m : List (String × α)) (k : String)
    (v : α) : mapLookup (mapInsert m k v) k = some v := by
  induction m with
  | nil => simp [mapInsert, mapLookup]
  | cons hd tl ih =>
      by_cases h : hd.1 = k
      · simp [mapInsert, h, mapLookup]
      · simp [mapInsert, h, mapLookup, ih]

theorem mapLookup_mapInsert_ne {α : Type} (m : List (String × α)) (k' k : String)
    (v : α) (h : k' ≠ k) : mapLookup (mapInsert m k' v) k = mapLookup m k := by
  induction m with
  | nil => simp [mapInsert, mapLookup, h]
  | cons hd tl ih =>
      by_cases h' : hd.1 = k'
      · simp [mapInsert, h', mapLookup, h]
      · simp [mapInsert, h', mapLookup, ih]

theorem mapLookup_foldl_mapInsert_not_mem {α : Type} (g : String → α → α)
    (l : List (String × α)) (m : List (String × α)) (k : String)
    (h : k ∉ mapKeys l) :
    mapLookup (l.foldl (fun acc kv => mapInsert acc kv.1 (g kv.1 kv.2)) m) k =
      mapLookup m k := by
  induction l generalizing m with
  | nil => rfl
  | cons hd tl ih =>
      simp only [mapKeys, List.map_cons, List.mem_cons, not_or] at h
      rw [List.foldl_cons, ih _ (by simpa [mapKeys] using h.2),
        mapLookup_mapInsert_ne _ _ _ _ (fun hh => h.1 hh.symm)]

theorem mapLookup_foldl_mapInsert {α : Type} (g : String → α → α)
    (l : List (String × α)) (m : List (String × α)) (k : String) (v : α)
    (hnd : (mapKeys l).Nodup) (hmem : (k, v) ∈ l) :
    mapLookup (l.foldl (fun acc kv => mapInsert acc kv.1 (g kv.1 kv.2)) m) k =
      some (g k v) := by
  induction l generalizing m with
  | nil => cases hmem
  | cons hd tl ih =>
      simp only [mapKeys, List.map_cons, List.nodup_cons] at hnd
      rcases List.mem_cons.mp hmem with heq | htl
      · subst heq
        rw [List.foldl_cons,
          mapLookup_foldl_mapInsert_not_mem _ _ _ _ (by simpa [mapKeys] using hnd.1),
          mapLookup_mapInsert_self]
      · exact List.foldl_cons _ _ ▸ ih _ (by simpa [mapKeys] using hnd.2) htl

/-! ## C10 -/

/-- **C10**: `SubscriptionContext.Send` returns `nil` without transmitting
anything when the session's websocket connection is `nil`; any frame issued
after the connection has been cleared is silently dropped while reporting
success to the caller. -/
theorem send_nil_connection_reports_success (sc : SubscriptionContext)
    (message : Nat) (h : sc.websocketConn = none) :
    sc.Send message = (none, none) := by
  simp [SubscriptionContext.Send, h]

/-- Witness for `send_nil_connection_reports_success` at a concrete
session and message. -/
theorem send_nil_connection_reports_success_witness :
    SubscriptionContext.Send
      { websocketConn := none, connectionInitAt := 0, acknowledged := false,
        subscriptions := [] } 7 = (none, none) :=
  send_nil_connection_reports_success _ 7 rfl

/-! ## C8 -/

/-- **C8**: `WebsocketHandler.GetCloseStatus` classifies errors: a
deadline-exceeded error pings the peer and yields `StatusNoStatusRcvd`
(1005) when the ping fails and `-1` otherwise; an error with no embedded
close status whose message contains "received header with unexpected rsv
bits" yields `StatusNormalClosure` (1000); any other error yields its
embedded close status, which is `-1` when the error carries none. -/
theorem getCloseStatus_classification (e : WsError)
    (pingResult : Option GoError) :
    (e.isDeadlineExceeded = true →
      GetCloseStatus e pingResult =
        (if pingResult.isSome then StatusNoStatusRcvd else -1))
  ∧ (e.isDeadlineExceeded = false → e.embeddedCloseStatus = -1 →
      e.messageContainsRsvBits = true →
      GetCloseStatus e pingResult = StatusNormalClosure)
  ∧ (e.isDeadlineExceeded = false →
      ¬ (e.embeddedCloseStatus = -1 ∧ e.messageContainsRsvBits = true) →
      GetCloseStatus e pingResult = e.embeddedCloseStatus) := by
  refine ⟨fun h => ?_, fun h h₁ h₂ => ?_, fun h h₁ => ?_⟩
  · simp [GetCloseStatus, h]
  · simp [GetCloseStatus, h, h₁, h₂]
  · simp only [GetCloseStatus, h, Bool.false_eq_true, if_false]
    rw [if_neg]
    intro hc
    exact h₁ ⟨hc.1, hc.2⟩

/-- Witness for `getCloseStatus_classification`: one concrete error per
classification case. -/
theorem getCloseStatus_classification_witness :
    GetCloseStatus ⟨true, -1, false⟩ (some (.goError "ping failed")) =
      StatusNoStatusRcvd
  ∧ GetCloseStatus ⟨true, -1, false⟩ none = -1
  ∧ GetCloseStatus ⟨false, -1, true⟩ none = StatusNormalClosure
  ∧ GetCloseStatus ⟨false, 4409, false⟩ none = 4409 := by
  refine ⟨?_, ?_, ?_, ?_⟩
  · simpa using
      (getCloseStatus_classification ⟨true, -1, false⟩
        (some (.goError "ping failed"))).1 rfl
  · simpa using (getCloseStatus_classification ⟨true, -1, false⟩ none).1 rfl
  · exact (getCloseStatus_classification ⟨false, -1, true⟩ none).2.1 rfl rfl rfl
  · exact (getCloseStatus_classification ⟨false, 4409, false⟩ none).2.2 rfl
      (by simp)

/-! ## C3 -/

/-- **C3** (counterexample): the claim names BadGateway as close status
502, but the `websocket.StatusBadGateway` constant the read loop matches is
1014; a read error with close status 502 and no configured retry codes is
NOT dispatched to the retry sentinel — it falls through to the `onError`
path. -/
theorem close_status_502_not_retried :
    handleReadError []
        { isEOFLike := false, isContextCanceled := false, closeStatus := 502 } =
      .onErrorPath
  ∧ handleReadError []
        { isEOFLike := false, isContextCanceled := false, closeStatus := 502 } ≠
      .emitRetryAndReturn := by
  decide

/-- **C3** (amended): for every read-loop error carrying a non-zero close
status: if the status equals a configured single retry code or lies within
a configured retry range (inclusive on both ends), the retry sentinel is
emitted (so `onError` is never invoked for it); otherwise BadGateway (1014)
and NoStatusReceived (1005) emit the retry sentinel, NormalClosure (1000)
and AbnormalClosure (1006) cancel the session, and InternalError (1011),
4400, 4408, 4429, 4409, and 4401 are sent on the error channel. -/
theorem close_status_dispatch (retryStatusCodes : List (List Int))
    (e : ReadError) (hEOF : e.isEOFLike = false)
    (hCancel : e.isContextCanceled = false) (_hNonzero : e.closeStatus ≠ 0) :
    ((∃ rc ∈ retryStatusCodes, matchesRetryCode e.closeStatus rc = true) →
      handleReadError retryStatusCodes e = .emitRetryAndReturn)
  ∧ (¬ (∃ rc ∈ retryStatusCodes, matchesRetryCode e.closeStatus rc = true) →
      ((e.closeStatus = StatusBadGateway ∨ e.closeStatus = StatusNoStatusRcvd) →
          handleReadError retryStatusCodes e = .emitRetryAndReturn)
    ∧ ((e.closeStatus = StatusNormalClosure ∨ e.closeStatus = StatusAbnormalClosure) →
          handleReadError retryStatusCodes e = .cancelAndReturn)
    ∧ ((e.closeStatus = StatusInternalError ∨ e.closeStatus = StatusInvalidMessage ∨
        e.closeStatus = StatusConnectionInitialisationTimeout ∨
        e.closeStatus = StatusTooManyInitialisationRequests ∨
        e.closeStatus = StatusSubscriberAlreadyExists ∨
        e.closeStatus = StatusUnauthorized) →
          handleReadError retryStatusCodes e = .sendErrorChanAndReturn)) := by
  have hany :
      retryStatusCodes.any (matchesRetryCode e.closeStatus) = true ↔
        ∃ rc ∈ retryStatusCodes, matchesRetryCode e.closeStatus rc = true := by
    simp [List.any_eq_true]
  constructor
  · intro hex
    simp [handleReadError, hEOF, hCancel, hany.mpr hex]
  · intro hnex
    have hanyf : retryStatusCodes.any (matchesRetryCode e.closeStatus) = false := by
      rcases hb : retryStatusCodes.any (matchesRetryCode e.closeStatus) with _ | _
      · rfl
      · exact absurd (hany.mp hb) hnex
    refine ⟨fun hs => ?_, fun hs => ?_, fun hs => ?_⟩
    · simp [handleReadError, hEOF, hCancel, hanyf, hs]
    · rcases hs with hs | hs <;>
      · rw [hs] at hanyf
        simp only [StatusNormalClosure, StatusAbnormalClosure] at hanyf
        simp [handleReadError, hEOF, hCancel, hanyf, hs, StatusNormalClosure,
          StatusAbnormalClosure, StatusBadGateway, StatusNoStatusRcvd]
    · rcases hs with hs | hs | hs | hs | hs | hs <;>
      · rw [hs] at hanyf
        simp only [StatusInternalError, StatusInvalidMessage,
          StatusConnectionInitialisationTimeout,
          StatusTooManyInitialisationRequests, StatusSubscriberAlreadyExists,
          StatusUnauthorized] at hanyf
        simp [handleReadError, hEOF, hCancel, hanyf, hs, StatusNormalClosure,
          StatusAbnormalClosure, StatusBadGateway, StatusNoStatusRcvd,
          StatusInternalError, StatusInvalidMessage,
          StatusConnectionInitialisationTimeout,
          StatusTooManyInitialisationRequests, StatusSubscriberAlreadyExists,
          StatusUnauthorized]

/-- Witness for `close_status_dispatch`: a configured single retry code
4400 matches and retries; with no configured codes, close status 1014
retries, 1006 cancels, and 4401 is sent on the error channel. -/
theorem close_status_dispatch_witness :
    handleReadError [[4400]]
        { isEOFLike := false, isContextCanceled := false, closeStatus := 4400 } =
      .emitRetryAndReturn
  ∧ handleReadError []
        { isEOFLike := false, isContextCanceled := false, closeStatus := 1014 } =
      .emitRetryAndReturn
  ∧ handleReadError []
        { isEOFLike := false, isContextCanceled := false, closeStatus := 1006 } =
      .cancelAndReturn
  ∧ handleReadError []
        { isEOFLike := false, isContextCanceled := false, closeStatus := 4401 } =
      .sendErrorChanAndReturn := by
  refine ⟨?_, ?_, ?_, ?_⟩
  · exact (close_status_dispatch [[4400]] _ rfl rfl (by norm_num)).1
      ⟨[4400], by simp, by decide⟩
  · exact ((close_status_dispatch [] _ rfl rfl (by norm_num)).2
      (by simp)).1 (Or.inl rfl)
  · exact ((close_status_dispatch [] _ rfl rfl (by norm_num)).2
      (by simp)).2.1 (Or.inr rfl)
  · exact ((close_status_dispatch [] _ rfl rfl (by norm_num)).2
      (by simp)).2.2 (Or.inr (Or.inr (Or.inr (Or.inr (Or.inr rfl)))))

/-! ## C9 -/

/-- The statistics state after adding 10 distinct active ids and 100
distinct closed ids from the reset state with cache cap 100
(`AddClosedConnection` can panic, hence the `Except`). -/
def statsScenario1 : Except GoPanic websocketStats :=
  (List.range 100).foldlM (fun s i => s.AddClosedConnection (100 + i))
    ((List.range 10).foldl (fun s i => s.AddActiveConnection i)
      (ResetWebSocketStats defaultWebSocketStats))

/-- `statsScenario1` after shrinking the cache cap to 10. -/
def statsScenario2 : Except GoPanic websocketStats :=
  statsScenario1.map (fun s => SetMaxClosedConnectionMetricCacheSize s 10)

/-- `statsScenario2` after 10 further distinct closed ids. -/
def statsScenario3 : Except GoPanic websocketStats :=
  statsScenario2.bind (fun s =>
    (List.range 10).foldlM (fun s i => s.AddClosedConnection (300 + i)) s)

/-- `statsScenario3` after a reset. -/
def statsScenario4 : Except GoPanic websocketStats :=
  statsScenario3.map ResetWebSocketStats

/-- **C9**: starting from the reset statistics state with cache cap 100,
adding 10 distinct active and 100 distinct closed ids gives totals (10,
100) and a closed-id cache of 100 entries (no panic occurs); shrinking the
cap to 10 leaves both totals unchanged and truncates the cache to the 10
newest ids; 10 further distinct closed ids give total closed 110 with
cache length 10; reset returns all three to zero; and adding a closed id
already present in the cache leaves the total-closed counter unchanged. -/
theorem webSocketStats_truncation :
    statsScenario1.map (fun s =>
        ((GetWebSocketStats s).TotalActiveConnections,
         (GetWebSocketStats s).TotalClosedConnections,
         s.closedConnectionIDs.length)) = .ok (10, 100, 100)
  ∧ statsScenario2.map (fun s =>
        ((GetWebSocketStats s).TotalActiveConnections,
         (GetWebSocketStats s).TotalClosedConnections)) = .ok (10, 100)
  ∧ statsScenario2.map (fun s => s.closedConnectionIDs) =
      .ok [190, 191, 192, 193, 194, 195, 196, 197, 198, 199]
  ∧ statsScenario3.map (fun s =>
        ((GetWebSocketStats s).TotalClosedConnections,
         s.closedConnectionIDs.length)) = .ok (110, 10)
  ∧ statsScenario4.map (fun s =>
        ((GetWebSocketStats s).TotalActiveConnections,
         (GetWebSocketStats s).TotalClosedConnections,
         s.closedConnectionIDs.length)) = .ok (0, 0, 0)
  ∧ statsScenario3.map (fun s => s.closedConnectionIDs.contains 309) =
      .ok true
  ∧ (statsScenario3.bind (fun s => s.AddClosedConnection 309)).map
        (fun s => s.totalClosedConnections) =
      statsScenario3.map (fun s => s.totalClosedConnections) := by
  set_option maxRecDepth 10000 in decide

/-! ## C2 -/

theorem foldl_SetSubscription_some (g : String → Subscription → Subscription)
    (l : List (String × Subscription)) (ctx : SubscriptionContext) :
    l.foldl (fun c kv => c.SetSubscription kv.1 (some (g kv.1 kv.2))) ctx =
      { ctx with
          subscriptions :=
            l.foldl (fun m kv => mapInsert m kv.1 (g kv.1 kv.2))
              ctx.subscriptions } := by
  induction l generalizing ctx with
  | nil => rfl
  | cons hd tl ih =>
      rw [List.foldl_cons, ih]
      rfl

/-- **C2**: at session startup, every registry entry is cloned into the new
session map under the same key; the clone keeps the key, payload and
handler of the original, gets the freshly generated session id, and has
status `SubscriptionWaiting`; the new session starts unacknowledged (and
without a connection). -/
theorem initNewSession_clones_registry (sc : SubscriptionClient)
    (fresh : String → String) (key : String) (sub : Subscription)
    (hnd : (mapKeys sc.rawSubscriptions).Nodup)
    (hmem : (key, sub) ∈ sc.rawSubscriptions) :
    mapLookup (initNewSessionContext sc fresh).subscriptions key =
      some { id := fresh key, key := sub.key, payload := sub.payload,
             handler := sub.handler, status := .SubscriptionWaiting }
  ∧ (initNewSessionContext sc fresh).acknowledged = false
  ∧ (initNewSessionContext sc fresh).websocketConn = none := by
  unfold initNewSessionContext
  rw [foldl_SetSubscription_some (fun k s => s.Clone (fresh k))]
  refine ⟨?_, rfl, rfl⟩
  have h := mapLookup_foldl_mapInsert (fun k s => s.Clone (fresh k))
    sc.rawSubscriptions [] key sub hnd hmem
  simpa [Subscription.Clone] using h

/-- A concrete one-entry registry client used by witnesses. -/
def demoRegistryClient : SubscriptionClient :=
  { clientStatus := scStatusRunning
    rawSubscriptions :=
      [("k1", { id := "k1", key := "k1",
                payload := { Query := "subscription { x }",
                             Variables := 0, OperationName := "" },
                handler := 3,
                status := .SubscriptionRunning })]
    currentSession := none
    exitWhenNoSubscription := true
    retryStatusCodes := []
    connectionInitialisationTimeout := 0
    onErrorReturns := none }

/-- Witness for `initNewSession_clones_registry` on a one-entry registry. -/
theorem initNewSession_clones_registry_witness :
    mapLookup
        (initNewSessionContext demoRegistryClient
          (fun k => k ++ "-fresh")).subscriptions "k1" =
      some { id := "k1-fresh", key := "k1",
             payload := { Query := "subscription { x }", Variables := 0,
                          OperationName := "" },
             handler := 3, status := .SubscriptionWaiting } := by
  exact (initNewSession_clones_registry demoRegistryClient
    (fun k => k ++ "-fresh") "k1"
    { id := "k1", key := "k1",
      payload := { Query := "subscription { x }", Variables := 0,
                   OperationName := "" },
      handler := 3, status := .SubscriptionRunning }
    (by decide) (by decide)).1

/-! ## C5 -/

/-- **C5**: `doRaw` uses the freshly generated identifier as both the
stable key and the subscription id, records the subscription in the
registry with status `SubscriptionWaiting`, returns that id, and invokes
`protocol.Subscribe` immediately if and only if a current session exists,
the client status is `scStatusRunning`, and the session is acknowledged. -/
theorem doRaw_registers_and_subscribes (oracle : ProtocolOracle)
    (sc : SubscriptionClient) (uuid : String) (query : String) (vars : Nat)
    (operationName : String) (handler : Nat) :
    (doRaw oracle sc uuid query vars operationName handler).id = uuid
  ∧ mapLookup
      (doRaw oracle sc uuid query vars operationName handler).client.rawSubscriptions
      uuid =
      some { id := uuid, key := uuid,
             payload := { Query := query, Variables := vars,
                          OperationName := operationName },
             handler := handler, status := .SubscriptionWaiting }
  ∧ ((doRaw oracle sc uuid query vars operationName handler).subscribeInvoked =
        true ↔
      ∃ session, sc.currentSession = some session ∧
        sc.clientStatus = scStatusRunning ∧ session.acknowledged = true) := by
  unfold doRaw
  cases hs : sc.currentSession with
  | none =>
      refine ⟨rfl, ?_, ?_⟩
      · exact mapLookup_mapInsert_self sc.rawSubscriptions uuid _
      · simp [hs]
  | some session =>
      by_cases hc : sc.clientStatus = scStatusRunning ∧ session.acknowledged = true
      · refine ⟨?_, ?_, ?_⟩
        · simp [SubscriptionContext.SetSubscription, hc]
        · simp only [SubscriptionContext.SetSubscription]
          rw [if_pos ⟨hc.1, by simp [hc.2]⟩]
          exact mapLookup_mapInsert_self sc.rawSubscriptions uuid _
        · simp only [SubscriptionContext.SetSubscription]
          rw [if_pos ⟨hc.1, by simp [hc.2]⟩]
          simp [hs, hc]
      · refine ⟨?_, ?_, ?_⟩
        · simp only [SubscriptionContext.SetSubscription]
          rw [if_neg (by simpa using hc)]
        · simp only [SubscriptionContext.SetSubscription]
          rw [if_neg (by simpa using hc)]
          exact mapLookup_mapInsert_self sc.rawSubscriptions uuid _
        · simp only [SubscriptionContext.SetSubscription]
          rw [if_neg (by simpa using hc)]
          simp only [hs]
          constructor
          · intro h; cases h
          · rintro ⟨s, hs', hrun, hack⟩
            cases hs'
            exact absurd ⟨hrun, hack⟩ hc

/-! ## C1 -/

/-- The protocol oracle whose calls all succeed. -/
def trivialProtocol : ProtocolOracle :=
  { unsubscribeResult := fun _ => none
    subscribeResult := fun _ => none
    closeResult := none }

/-- **C1** (code bug): with id `"sub-1"` present in the registry and no
current session (a subscription registered before `Run`), `Unsubscribe`
dereferences the nil current-session pointer
(`currentSession.GetSubscription(id)` runs before the
`currentSession == nil` check) and panics instead of removing the entry and
returning `nil`. -/
theorem unsubscribe_nil_session_panics :
    SubscriptionClient.Unsubscribe trivialProtocol
      { clientStatus := scStatusInitializing
        rawSubscriptions :=
          [("sub-1", { id := "sub-1", key := "sub-1",
                       payload := { Query := "subscription { x }",
                                    Variables := 0, OperationName := "" },
                       handler := 0, status := .SubscriptionWaiting })]
        currentSession := none
        exitWhenNoSubscription := true
        retryStatusCodes := []
        connectionInitialisationTimeout := 0
        onErrorReturns := none } "sub-1" =
      .error .nilPointerDereference := rfl

/-! ## C7 -/

/-- **C7**: when an initialisation timeout is configured, the current
session is unacknowledged, and more than the timeout has elapsed since
`connectionInitAt`, the supervisor's default branch sends a websocket close
error with code 4408 and reason "Connection initialisation timeout" on the
error channel; and (with no `onError` callback registered, the default)
the error-channel branch handles that error by creating a new session
rather than returning from `Run`. -/
theorem init_timeout_watchdog_retries (sc : SubscriptionClient)
    (session : SubscriptionContext) (now : Int)
    (hSession : sc.currentSession = some session)
    (hTimeout : sc.connectionInitialisationTimeout > 0)
    (hAck : session.acknowledged = false)
    (hElapsed : now - session.connectionInitAt >
      sc.connectionInitialisationTimeout)
    (hNoCallback : sc.onErrorReturns = none)
    (hNotClosing : sc.clientStatus ≠ scStatusClosing) :
    initTimeoutWatchdog sc now =
      some (.closeErr StatusConnectionInitialisationTimeout
        "Connection initialisation timeout")
  ∧ handleErrorChan sc.clientStatus sc.onErrorReturns
      (.closeErr StatusConnectionInitialisationTimeout
        "Connection initialisation timeout") = .newSession := by
  constructor
  · simp [initTimeoutWatchdog, hSession, hTimeout, hAck, hElapsed]
  · simp [handleErrorChan, hNotClosing, hNoCallback, errorsIs]

/-- Witness for `init_timeout_watchdog_retries`: a concrete unacknowledged
session whose initialisation deadline has passed. -/
theorem init_timeout_watchdog_retries_witness :
    initTimeoutWatchdog
        { clientStatus := scStatusRunning
          rawSubscriptions := []
          currentSession := some
            { websocketConn := none, connectionInitAt := 100,
              acknowledged := false, subscriptions := [] }
          exitWhenNoSubscription := true
          retryStatusCodes := []
          connectionInitialisationTimeout := 5
          onErrorReturns := none } 200 =
      some (.closeErr StatusConnectionInitialisationTimeout
        "Connection initialisation timeout")
  ∧ handleErrorChan scStatusRunning none
      (.closeErr StatusConnectionInitialisationTimeout
        "Connection initialisation timeout") = .newSession := by
  exact init_timeout_watchdog_retries _ _ 200 rfl (by norm_num) rfl
    (by norm_num) rfl (by norm_num [scStatusRunning, scStatusClosing])

/-! ## Teardown lemmas (C4, C6) -/

theorem collectStep_conn (oracle : ProtocolOracle)
    (acc : SubscriptionContext × List (String × GoError))
    (kv : String × Subscription) :
    (collectStep oracle acc kv).1.websocketConn = acc.1.websocketConn := by
  unfold collectStep SubscriptionContext.SetSubscription
  try dsimp only
  split
  · split
    · split <;> rfl
    · rfl
  · rfl

theorem foldl_collectStep_conn (oracle : ProtocolOracle)
    (subs : List (String × Subscription)) :
    ∀ acc : SubscriptionContext × List (String × GoError),
      ((subs.foldl (collectStep oracle) acc).1).websocketConn =
        acc.1.websocketConn := by
  induction subs with
  | nil => intro acc; rfl
  | cons hd tl ih =>
      intro acc
      rw [List.foldl_cons, ih, collectStep_conn]

theorem collectUnsubscribeErrors_conn (oracle : ProtocolOracle)
    (subs : List (String × Subscription)) (session : SubscriptionContext) :
    (collectUnsubscribeErrors oracle subs session).1.websocketConn =
      session.websocketConn :=
  foldl_collectStep_conn oracle subs (session, [])

theorem collectStep_errors_filtered (oracle : ProtocolOracle)
    (acc : SubscriptionContext × List (String × GoError))
    (kv : String × Subscription)
    (h : ∀ p ∈ acc.2, errorsIs p.2 .netErrClosed = false ∧
      errorsIs p.2 .contextCanceled = false) :
    ∀ p ∈ (collectStep oracle acc kv).2,
      errorsIs p.2 .netErrClosed = false ∧
        errorsIs p.2 .contextCanceled = false := by
  unfold collectStep
  split
  · cases horacle : oracle.unsubscribeResult kv.2 with
    | none => simpa using h
    | some err =>
        simp only [horacle]
        split
        · simpa using h
        · rename_i hflt
          intro p hp
          rcases List.mem_append.mp hp with hp | hp
          · exact h p hp
          · have hpe : p = (kv.1, err) := by simpa using hp
            subst hpe
            simp only [Bool.or_eq_true, not_or, Bool.not_eq_true] at hflt
            exact ⟨hflt.1, hflt.2⟩
  · simpa using h

theorem foldl_collectStep_errors_filtered (oracle : ProtocolOracle)
    (subs : List (String × Subscription)) :
    ∀ acc : SubscriptionContext × List (String × GoError),
      (∀ p ∈ acc.2, errorsIs p.2 .netErrClosed = false ∧
        errorsIs p.2 .contextCanceled = false) →
      ∀ p ∈ (subs.foldl (collectStep oracle) acc).2,
        errorsIs p.2 .netErrClosed = false ∧
          errorsIs p.2 .contextCanceled = false := by
  induction subs with
  | nil => intro acc h; exact h
  | cons hd tl ih =>
      intro acc h
      rw [List.foldl_cons]
      exact ih _ (collectStep_errors_filtered oracle acc hd h)

theorem contextClose_clears_conn (x : SubscriptionContext) :
    (x.Close).1.websocketConn = none := by
  unfold SubscriptionContext.Close
  cases h : x.websocketConn with
  | none => exact h
  | some conn =>
      try dsimp only
      split <;> try rfl
      split <;> rfl

theorem closeClient_clientStatus (oracle : ProtocolOracle)
    (sc : SubscriptionClient) :
    (closeClient oracle sc).1.clientStatus = scStatusClosing := by
  unfold closeClient
  by_cases h : sc.clientStatus = scStatusClosing
  · rw [if_pos h]
    exact h
  · rw [if_neg h]
    try dsimp only
    split
    · rfl
    · split
      · rfl
      · split <;> rfl

theorem closeClient_rawSubscriptions (oracle : ProtocolOracle)
    (sc : SubscriptionClient) :
    (closeClient oracle sc).1.rawSubscriptions = sc.rawSubscriptions := by
  unfold closeClient
  try dsimp only
  split
  · rfl
  · split
    · rfl
    · split
      · rfl
      · split <;> rfl

theorem closeClient_closing (oracle : ProtocolOracle)
    (sc : SubscriptionClient) (h : sc.clientStatus = scStatusClosing) :
    closeClient oracle sc = (sc, none) := by
  unfold closeClient
  rw [if_pos h]

/-! ## C4 -/

/-- **C4**: when `close` tears down a non-closing client whose session has
a live connection and at least one non-excluded unsubscribe error remains,
the per-subscription unsubscribe errors, the protocol close error, and the
session close error are aggregated into one structured error whose
`Extensions` carries them under the keys "unsubscribe", "protocol" and
"close"; unsubscribe errors equal to `net.ErrClosed` or
`context.Canceled` are excluded from the aggregation; and a session
`Close` whose connection close fails with `net.ErrClosed` reports `nil`. -/
theorem close_aggregates_teardown_errors (oracle : ProtocolOracle)
    (sc : SubscriptionClient) (session : SubscriptionContext)
    (conn : WebsocketConnM)
    (hStatus : sc.clientStatus ≠ scStatusClosing)
    (hSession : sc.currentSession = some session)
    (hConn : session.websocketConn = some conn)
    (hNonempty :
      (collectUnsubscribeErrors oracle session.GetSubscriptions session).2 ≠ []) :
    (closeClient oracle sc).2 =
      some
        { Message := "failed to close the subscription client"
          Extensions :=
            [("unsubscribe", .errMap
                (collectUnsubscribeErrors oracle session.GetSubscriptions
                  session).2),
             ("protocol", .err oracle.closeResult),
             ("close", .err
                ((collectUnsubscribeErrors oracle session.GetSubscriptions
                  session).1.Close).2)] }
  ∧ (∀ p ∈ (collectUnsubscribeErrors oracle session.GetSubscriptions session).2,
      errorsIs p.2 .netErrClosed = false ∧
        errorsIs p.2 .contextCanceled = false)
  ∧ (conn.closeResult = some .netErrClosed → (session.Close).2 = none) := by
  refine ⟨?_, ?_, ?_⟩
  · unfold closeClient
    rw [if_neg hStatus]
    try dsimp only
    simp only [hSession]
    try dsimp only
    simp only [hConn]
    try dsimp only
    rw [if_pos (List.length_pos.mpr hNonempty)]
  · exact foldl_collectStep_errors_filtered oracle session.GetSubscriptions
      (session, []) (by simp)
  · intro hclosed
    unfold SubscriptionContext.Close
    simp [hConn, hclosed, errorsIs]

/-- A connection whose close fails with `net.ErrClosed`. -/
def demoConn : WebsocketConnM :=
  { writeJSONResult := none
    closeResult := some .netErrClosed
    pingResult := none }

/-- A running subscription used by the teardown witnesses. -/
def demoRunningSub : Subscription :=
  { id := "s-id", key := "s-key"
    payload := { Query := "subscription { y }", Variables := 1,
                 OperationName := "" }
    handler := 1, status := .SubscriptionRunning }

/-- A protocol oracle whose unsubscribe and close calls fail. -/
def failingUnsubProtocol : ProtocolOracle :=
  { unsubscribeResult := fun _ => some (.goError "unsubscribe failed")
    subscribeResult := fun _ => none
    closeResult := some (.goError "protocol close failed") }

/-- An acknowledged session holding one running subscription. -/
def demoTeardownSession : SubscriptionContext :=
  { websocketConn := some demoConn
    connectionInitAt := 0
    acknowledged := true
    subscriptions := [("s-key", demoRunningSub)] }

/-- A running client whose current session is `demoTeardownSession`. -/
def demoTeardownClient : SubscriptionClient :=
  { clientStatus := scStatusRunning
    rawSubscriptions := [("s-key", demoRunningSub)]
    currentSession := some demoTeardownSession
    exitWhenNoSubscription := true
    retryStatusCodes := []
    connectionInitialisationTimeout := 0
    onErrorReturns := none }

/-- Witness for `close_aggregates_teardown_errors` at a concrete teardown:
the structured error carries the failed unsubscribe under "unsubscribe",
the failed protocol close under "protocol", and a `nil` session close
(suppressed `net.ErrClosed`) under "close". -/
theorem close_aggregates_teardown_errors_witness :
    (closeClient failingUnsubProtocol demoTeardownClient).2 =
      some
        { Message := "failed to close the subscription client"
          Extensions :=
            [("unsubscribe", .errMap [("s-key", .goError "unsubscribe failed")]),
             ("protocol", .err (some (.goError "protocol close failed"))),
             ("close", .err none)] }
  ∧ (demoTeardownSession.Close).2 = none := by
  have h := close_aggregates_teardown_errors failingUnsubProtocol
    demoTeardownClient demoTeardownSession demoConn (by decide) rfl rfl
    (by decide)
  exact ⟨h.1.trans (by decide), h.2.2 rfl⟩

/-! ## C6 -/

/-- **C6**: `Close()` empties the registry and leaves the client in the
closing state; it closes the current session's connection (when the client
was not already closing and a connection existed); and it is idempotent: a
second `Close()` returns `nil`. -/
theorem close_idempotent (oracle : ProtocolOracle) (sc : SubscriptionClient) :
    (SubscriptionClient.Close oracle sc).1.rawSubscriptions = []
  ∧ (SubscriptionClient.Close oracle sc).1.clientStatus = scStatusClosing
  ∧ (SubscriptionClient.Close oracle
      (SubscriptionClient.Close oracle sc).1).2 = none
  ∧ (∀ session conn, sc.clientStatus ≠ scStatusClosing →
      sc.currentSession = some session → session.websocketConn = some conn →
      ∃ session',
        (SubscriptionClient.Close oracle sc).1.currentSession = some session' ∧
          session'.websocketConn = none) := by
  refine ⟨?_, ?_, ?_, ?_⟩
  · unfold SubscriptionClient.Close
    try dsimp only
    rw [closeClient_rawSubscriptions]
  · unfold SubscriptionClient.Close
    try dsimp only
    rw [closeClient_clientStatus]
  · have hstat :
        (SubscriptionClient.Close oracle sc).1.clientStatus =
          scStatusClosing := by
      unfold SubscriptionClient.Close
      try dsimp only
      rw [closeClient_clientStatus]
    conv_lhs =>
      rw [SubscriptionClient.Close.eq_def]
    try dsimp only
    rw [closeClient_closing _ _ (by exact hstat)]
  · intro session conn hStatus hSession hConn
    refine ⟨((collectUnsubscribeErrors oracle session.GetSubscriptions
      session).1.Close).1, ?_, contextClose_clears_conn _⟩
    unfold SubscriptionClient.Close closeClient
    try dsimp only
    rw [if_neg hStatus]
    try dsimp only
    simp only [hSession]
    try dsimp only
    simp only [hConn]
    try dsimp only
    split <;> rfl

/-- Witness for `close_idempotent` at a concrete running client: the first
`Close` empties the registry and clears the session's connection, and a
second `Close` returns `nil`. -/
theorem close_idempotent_witness :
    (SubscriptionClient.Close trivialProtocol demoTeardownClient).1.rawSubscriptions = []
  ∧ (SubscriptionClient.Close trivialProtocol
      (SubscriptionClient.Close trivialProtocol demoTeardownClient).1).2 = none
  ∧ ∃ session',
      (SubscriptionClient.Close trivialProtocol
        demoTeardownClient).1.currentSession = some session' ∧
        session'.websocketConn = none := by
  have h := close_idempotent trivialProtocol demoTeardownClient
  exact ⟨h.1, h.2.2.1,
    h.2.2.2 demoTeardownSession demoConn (by decide) rfl rfl⟩

/-- Witness for `doRaw_registers_and_subscribes` at a concrete client with
an acknowledged running session: the fresh id is returned, the registration
is recorded as waiting, and subscribe is invoked immediately. -/
theorem doRaw_registers_and_subscribes_witness :
    (doRaw trivialProtocol demoTeardownClient "u-1" "subscription { z }" 2 ""
      5).id = "u-1"
  ∧ mapLookup
      (doRaw trivialProtocol demoTeardownClient "u-1" "subscription { z }" 2 ""
        5).client.rawSubscriptions "u-1" =
      some { id := "u-1", key := "u-1",
             payload := { Query := "subscription { z }", Variables := 2,
                          OperationName := "" },
             handler := 5, status := .SubscriptionWaiting }
  ∧ (doRaw trivialProtocol demoTeardownClient "u-1" "subscription { z }" 2 ""
      5).subscribeInvoked = true := by
  have h := doRaw_registers_and_subscribes trivialProtocol demoTeardownClient
    "u-1" "subscription { z }" 2 "" 5
  exact ⟨h.1, h.2.1, h.2.2.mpr ⟨demoTeardownSession, rfl, rfl, rfl⟩⟩

end GoGraphqlClient
